import Mathlib

/-!
Verification of the bevy_ecs change-detection / system-run core
(crates/bevy_ecs: system/into_system.rs, system/exclusive_system.rs,
reflect.rs, query/direct.rs, query/mod.rs) against its specification.

Machine integers are modelled as Nat reduced modulo 2^32 where the Rust
code relies on wrapping arithmetic.
-/

namespace BevyEcs

/-- The modulus of the u32 counters used throughout the tick machinery. -/
def U32MOD : Nat := 4294967296

/-- The value u32::MAX, used as the sentinel initial system counter. -/
def U32MAX : Nat := 4294967295

/-- Rust u32::wrapping_sub on counters represented as naturals below 2^32. -/
def wrappingSub (a b : Nat) : Nat := (a + U32MOD - b) % U32MOD

theorem wrappingSub_eq (a b : Nat) (ha : a < U32MOD) (hb : b < U32MOD) :
    wrappingSub a b = if b ≤ a then a - b else a + U32MOD - b := by
  unfold wrappingSub
  split
  case isTrue h =>
    have h1 : a + U32MOD - b = U32MOD + (a - b) := by omega
    rw [h1, Nat.add_mod_left]
    exact Nat.mod_eq_of_lt (by omega)
  case isFalse h =>
    exact Nat.mod_eq_of_lt (by omega)

theorem wrappingSub_lt (a b : Nat) : wrappingSub a b < U32MOD := by
  unfold wrappingSub
  exact Nat.mod_lt _ (by unfold U32MOD; omega)

/-- Per component-instance change-detection counters
(struct ComponentCounters, crate component module): an added tick and a
changed tick. -/
structure ComponentCounters where
  added_tick : Nat
  changed_tick : Nat
deriving DecidableEq

/-- Modelled from the spec: ComponentCounters::set_changed (the component
module is not under src/); "changed_tick is set to the current global tick"
at the moment of the mutable dereference. -/
def ComponentCounters.set_changed (c : ComponentCounters) (global : Nat) :
    ComponentCounters :=
  { c with changed_tick := global }

/-- Modelled from the spec: ComponentCounters::is_added (component module not
under src/): a component is added for a system iff the wrapping distance from
its added tick to the global tick is within the window since the system's
last run. -/
def ComponentCounters.is_added (c : ComponentCounters)
    (system_counter global : Nat) : Bool :=
  wrappingSub global c.added_tick < wrappingSub global system_counter

/-- Modelled from the spec: ComponentCounters::is_mutated (component module
not under src/), the analogue of is_added for the changed tick. -/
def ComponentCounters.is_mutated (c : ComponentCounters)
    (system_counter global : Nat) : Bool :=
  wrappingSub global c.changed_tick < wrappingSub global system_counter

/-- The world state visible to the system-run machinery: the global tick,
the exclusive-system tick slot, and the data a deferred command buffer can
append to (World fields global_system_counter / exclusive_system_counter). -/
structure SWorld where
  global_system_counter : Nat
  exclusive_system_counter : Nat
  data : List Nat
deriving DecidableEq

/-- Modelled from the spec: World::increment_global_system_counter (world
module not under src/): returns the current global tick and advances the
global tick by one, exactly as the inlined sequence in
ExclusiveSystemFn::run does. -/
def SWorld.increment_global_system_counter (w : SWorld) : Nat × SWorld :=
  (w.global_system_counter,
   { w with global_system_counter := (w.global_system_counter + 1) % U32MOD })

/-- SystemState (into_system.rs): per-system bookkeeping; only the fields the
claims touch are carried (name, send flag, system_counter). -/
structure SystemState where
  name : String
  is_send : Bool
  system_counter : Nat
deriving DecidableEq

/-- SystemState::new (into_system.rs lines 25-35): the counter starts at
u32::MAX so everything is detected as added/changed on the first run. -/
def SystemState.new (name : String) : SystemState :=
  { name := name, is_send := true, system_counter := U32MAX }

/-- FunctionSystem (into_system.rs): a callback (which under run_unsafe only
holds a shared borrow of the world, so it cannot move the counters), its
SystemState, and the deferred command buffer held in its parameter state. -/
structure FunctionSystem (α : Type) where
  func : SWorld → Nat → α
  system_state : SystemState
  buffer : List Nat

/-- Result of running a function system. -/
structure RunResult (α : Type) where
  world : SWorld
  system : FunctionSystem α
  out : α

/-- FunctionSystem::run_unsafe (into_system.rs lines 146-157): read-and-bump
the global tick, run the callback with that tick, then record the tick as the
system's own counter. -/
def FunctionSystem.run_unsafe (s : FunctionSystem α) (w : SWorld) :
    RunResult α :=
  let r := w.increment_global_system_counter
  let out := s.func w r.1
  { world := r.2,
    system := { s with system_state := { s.system_state with system_counter := r.1 } },
    out := out }

/-- Modelled from the spec: FunctionSystem::apply_buffers replays the deferred
command buffer against the world (system_param module not under src/). -/
def FunctionSystem.apply_buffers (s : FunctionSystem α) (w : SWorld) : SWorld :=
  { w with data := w.data ++ s.buffer }

/-- ExclusiveSystemFn (exclusive_system.rs lines 19-24): a callback taking the
whole world mutably, a name, and the system's own counter. -/
structure ExclusiveSystemFn where
  func : SWorld → SWorld
  name : String
  system_counter : Nat

/-- IntoExclusiveSystem::exclusive_system (exclusive_system.rs lines 68-76):
the counter starts at u32::MAX. -/
def exclusive_system (f : SWorld → SWorld) (name : String) : ExclusiveSystemFn :=
  { func := f, name := name, system_counter := U32MAX }

/-- ExclusiveSystemFn::run (exclusive_system.rs lines 35-47): save the world's
exclusive counter, expose the system's own counter during the callback, then
record and bump the global tick and restore the saved exclusive counter. -/
def ExclusiveSystemFn.run (s : ExclusiveSystemFn) (w : SWorld) :
    SWorld × ExclusiveSystemFn :=
  let saved_counter := w.exclusive_system_counter
  let w1 := { w with exclusive_system_counter := s.system_counter }
  let w2 := s.func w1
  let g := w2.global_system_counter
  let w3 := { w2 with global_system_counter := (g + 1) % U32MOD }
  let s1 := { s with system_counter := g }
  let w4 := { w3 with exclusive_system_counter := saved_counter }
  (w4, s1)

/-- ExclusiveSystemCoerced::run (exclusive_system.rs lines 92-95): run the
wrapped system, then immediately apply its buffers, before returning. -/
def ExclusiveSystemCoerced.run (s : FunctionSystem Unit) (w : SWorld) :
    SWorld × FunctionSystem Unit :=
  let r := s.run_unsafe w
  let w2 := r.system.apply_buffers r.world
  (w2, r.system)

/-- Modelled from the spec: check_system_counter_impl (system module not under
src/): a system counter that has fallen more than half the u32 range behind
the global tick is rebased so wraparound comparisons stay unambiguous; no
error is ever produced. -/
def MAX_DELTA : Nat := U32MOD / 2

/-- Modelled from the spec: the rebase itself; if the wrapping distance from
the system counter to the global tick exceeds half the range, clamp the
counter to exactly that distance behind the global tick. -/
def check_system_counter_impl (system_counter global : Nat) : Nat :=
  if MAX_DELTA < wrappingSub global system_counter then
    wrappingSub global MAX_DELTA
  else system_counter

/-- FunctionSystem::check_system_counter (into_system.rs lines 175-181):
delegates to check_system_counter_impl on the SystemState counter. -/
def FunctionSystem.check_system_counter (s : FunctionSystem α) (global : Nat) :
    FunctionSystem α :=
  { s with system_state :=
      { s.system_state with
          system_counter :=
            check_system_counter_impl s.system_state.system_counter global } }

/-- ExclusiveSystemFn::check_system_counter (exclusive_system.rs lines 51-57):
delegates to check_system_counter_impl on the system's counter. -/
def ExclusiveSystemFn.check_system_counter (s : ExclusiveSystemFn)
    (global : Nat) : ExclusiveSystemFn :=
  { s with system_counter :=
      check_system_counter_impl s.system_counter global }

/-- Association-list update: replace the binding for a key, or append it. -/
def aset [BEq κ] (k : κ) (v : ν) : List (κ × ν) → List (κ × ν)
  | [] => [(k, v)]
  | p :: rest => if k == p.1 then (k, v) :: rest else p :: aset k v rest

/-- Entity handle (entity module): storage index plus generation; the
generation invalidates stale handles after index reuse. -/
structure Entity where
  index : Nat
  generation : Nat
deriving DecidableEq

/-- The per-index liveness record the world keeps for an entity: its current
generation and the archetype it lives in. -/
structure EntityRecord where
  generation : Nat
  archetype : Nat
deriving DecidableEq

/-- A stored component instance: its value together with its
change-detection counters. -/
structure CompSlot where
  value : Nat
  counters : ComponentCounters
deriving DecidableEq

/-- Modelled from the spec: the world storage visible to reflect.rs and
query/direct.rs (the world and component modules are not under src/): live
entities by index, the TypeId-to-ComponentId registry, the per
(archetype, component) ArchetypeComponentId table, the stored component
instances keyed by (entity index, component id), and the two tick counters. -/
structure RWorld where
  entities : List (Nat × EntityRecord)
  typeIds : List (Nat × Nat)
  archCompIds : List ((Nat × Nat) × Nat)
  compData : List ((Nat × Nat) × CompSlot)
  global_system_counter : Nat
  exclusive_system_counter : Nat

/-- World::get_entity: resolves a handle, failing when the handle is stale
(index dead or generation mismatch). -/
def RWorld.get_entity (w : RWorld) (e : Entity) : Option EntityRecord :=
  (w.entities.lookup e.index).bind fun r =>
    if r.generation = e.generation then some r else none

/-- Modelled from the spec: World::get_mut resolves the entity handle and then
the component instance, as an Option (None on stale handle or missing
component). -/
def RWorld.get_mut (w : RWorld) (cid : Nat) (e : Entity) : Option CompSlot :=
  (w.get_entity e).bind fun _ => w.compData.lookup (e.index, cid)

/-- Write a component slot back into the world. -/
def RWorld.setComp (w : RWorld) (idx cid : Nat) (s : CompSlot) : RWorld :=
  { w with compData := aset (idx, cid) s w.compData }

/-- The read/write access bitsets over ArchetypeComponentId
(query access module). -/
structure Access where
  reads_and_writes : List Nat
  writes : List Nat
deriving DecidableEq

/-- Access::has_read: membership in the combined read/write set. -/
def Access.has_read (a : Access) (x : Nat) : Bool := a.reads_and_writes.contains x

/-- Access::has_write: membership in the write set. -/
def Access.has_write (a : Access) (x : Nat) : Bool := a.writes.contains x

/-- QueryComponentError (system query module), the error type of
DirectQuery::get_component and its mutable variants. -/
inductive QueryComponentError where
  | MissingReadAccess
  | MissingWriteAccess
  | MissingComponent
  | NoSuchEntity
deriving DecidableEq

/-- DirectQuery::get_component (query/direct.rs lines 233-257): stale-handle
check, then registry and archetype-component resolution (MissingComponent),
then the read-access check against the query's proven access set, then the
actual component fetch. The parameter t is the Rust TypeId of the requested
component type. -/
def DirectQuery.get_component (w : RWorld) (access : Access) (t : Nat)
    (e : Entity) : Except QueryComponentError Nat :=
  match w.get_entity e with
  | none => .error .NoSuchEntity
  | some r =>
    match w.typeIds.lookup t with
    | none => .error .MissingComponent
    | some cid =>
      match w.archCompIds.lookup (r.archetype, cid) with
      | none => .error .MissingComponent
      | some archetype_component =>
        if access.has_read archetype_component then
          match w.compData.lookup (e.index, cid) with
          | some slot => .ok slot.value
          | none => .error .MissingComponent
        else .error .MissingReadAccess

/-- DirectQuery::get_component_unchecked_mut (query/direct.rs lines 277-304):
identical to get_component except the access check demands write access and
its violation is MissingWriteAccess; returns the mutable slot. -/
def DirectQuery.get_component_unchecked_mut (w : RWorld) (access : Access)
    (t : Nat) (e : Entity) : Except QueryComponentError CompSlot :=
  match w.get_entity e with
  | none => .error .NoSuchEntity
  | some r =>
    match w.typeIds.lookup t with
    | none => .error .MissingComponent
    | some cid =>
      match w.archCompIds.lookup (r.archetype, cid) with
      | none => .error .MissingComponent
      | some archetype_component =>
        if access.has_write archetype_component then
          match w.compData.lookup (e.index, cid) with
          | some slot => .ok slot
          | none => .error .MissingComponent
        else .error .MissingWriteAccess

/-- DirectQuery::get_component_mut (query/direct.rs lines 263-269): delegates
to get_component_unchecked_mut under the query's unique borrow. -/
def DirectQuery.get_component_mut (w : RWorld) (access : Access) (t : Nat)
    (e : Entity) : Except QueryComponentError CompSlot :=
  DirectQuery.get_component_unchecked_mut w access t e

/-- ReflectMut (reflect.rs lines 115-120): unique type-erased borrow of a
component, carrying its counters and the two ticks sampled from the world. -/
structure ReflectMut where
  value : Nat
  component_counters : ComponentCounters
  system_counter : Nat
  global_system_counter : Nat
deriving DecidableEq

/-- DerefMut for ReflectMut (reflect.rs lines 131-138): obtaining the mutable
reference marks the component changed at the current global tick and yields
the value; the marking does not depend on any subsequent write. -/
def ReflectMut.deref_mut (r : ReflectMut) : ReflectMut × Nat :=
  ({ r with component_counters :=
       r.component_counters.set_changed r.global_system_counter },
   r.value)

/-- Modelled from the spec: the typed mutable accessor Mut (world module not
under src/), which carries the same fields as ReflectMut. -/
structure Mut where
  value : Nat
  component_counters : ComponentCounters
  system_counter : Nat
  global_system_counter : Nat
deriving DecidableEq

/-- Modelled from the spec: DerefMut for the typed accessor — on every
mutable dereference the changed tick is set to the current global tick. -/
def Mut.deref_mut (m : Mut) : Mut × Nat :=
  ({ m with component_counters :=
       m.component_counters.set_changed m.global_system_counter },
   m.value)

/-- ReflectComponent::reflect_component (reflect.rs lines 93-98): typed Option
of the component value, None on stale handle or missing component. The
parameter cid is the registered ComponentId of the closed-over type C. -/
def reflect_component (w : RWorld) (cid : Nat) (e : Entity) : Option Nat :=
  (w.get_entity e).bind fun _ =>
    (w.compData.lookup (e.index, cid)).map (·.value)

/-- ReflectComponent::reflect_component_mut (reflect.rs lines 99-109): builds
a ReflectMut over the component, sampling the world's exclusive system
counter and global system counter. -/
def reflect_component_mut (w : RWorld) (cid : Nat) (e : Entity) :
    Option ReflectMut :=
  (w.get_entity e).bind fun _ =>
    (w.compData.lookup (e.index, cid)).map fun slot =>
      { value := slot.value,
        component_counters := slot.counters,
        system_counter := w.exclusive_system_counter,
        global_system_counter := w.global_system_counter }

/-- ReflectComponent::apply_component (reflect.rs lines 81-84):
world.get_mut::<C>(entity).unwrap() followed by an apply through the mutable
borrow. The unwrap is a panic when the Option is None, modelled as none. -/
def apply_component (w : RWorld) (cid : Nat) (e : Entity) (v : Nat) :
    Option RWorld :=
  (w.get_mut cid e).map fun slot =>
    w.setComp e.index cid
      { value := v,
        counters := slot.counters.set_changed w.global_system_counter }

/-- StorageType (component module): the two storage strategies a component
type can be registered with. -/
inductive StorageType where
  | Table
  | SparseSet
deriving DecidableEq

/-- A stored component value with its change-detection ticks, as observed
through a query. -/
structure CompVal where
  value : Nat
  added_tick : Nat
  changed_tick : Nat
deriving DecidableEq

/-- An archetype: the exact (canonically sorted) set of component ids its
entities hold, plus its entity list in insertion order. -/
structure ArchetypeC where
  comps : List Nat
  ents : List Nat
deriving DecidableEq

/-- Modelled from the spec: the storage-level world state for the query
scenarios (world, archetype and storage modules not under src/): archetypes
in creation order, the dense table store and the sparse-set store (both keyed
by (entity, component id)), the next entity index, and the global tick. -/
structure QWorld where
  archetypes : List ArchetypeC
  tableData : List ((Nat × Nat) × CompVal)
  sparseData : List ((Nat × Nat) × CompVal)
  nextE : Nat
  tick : Nat
deriving DecidableEq

/-- The empty world. -/
def QWorld.empty : QWorld :=
  { archetypes := [], tableData := [], sparseData := [], nextE := 0, tick := 0 }

/-- Insert into a sorted duplicate-free list of component ids. -/
def insertSortedNat (x : Nat) : List Nat → List Nat
  | [] => [x]
  | y :: ys =>
    if x < y then x :: y :: ys
    else if x = y then y :: ys
    else y :: insertSortedNat x ys

/-- Canonical sorted duplicate-free form of a component-id set. -/
def canonSet (l : List Nat) : List Nat := l.foldr insertSortedNat []

/-- Read a component instance of entity e through the storage selected by the
registry: table-stored components from the table store, sparse-set-stored
ones from the sparse store. -/
def QWorld.getValue (reg : Nat → StorageType) (w : QWorld) (e c : Nat) :
    Option CompVal :=
  match reg c with
  | .Table => w.tableData.lookup (e, c)
  | .SparseSet => w.sparseData.lookup (e, c)

/-- Write a component instance of entity e through the storage selected by
the registry. -/
def QWorld.setValue (reg : Nat → StorageType) (w : QWorld) (e c : Nat)
    (v : CompVal) : QWorld :=
  match reg c with
  | .Table => { w with tableData := aset (e, c) v w.tableData }
  | .SparseSet => { w with sparseData := aset (e, c) v w.sparseData }

/-- Place an entity into the archetype holding exactly the given component
set, creating the archetype (at the end, in creation order) if absent. -/
def addArch (l : List ArchetypeC) (e : Nat) (set : List Nat) :
    List ArchetypeC :=
  if l.any (fun a => a.comps = set) then
    l.map fun a =>
      if a.comps = set then { a with ents := a.ents ++ [e] } else a
  else
    l ++ [{ comps := set, ents := [e] }]

/-- Remove an entity from every archetype's entity list. -/
def removeArch (l : List ArchetypeC) (e : Nat) : List ArchetypeC :=
  l.map fun a => { a with ents := a.ents.filter (· ≠ e) }

/-- Move an entity into the archetype of the given component set. -/
def QWorld.addToArchetype (w : QWorld) (e : Nat) (set : List Nat) : QWorld :=
  { w with archetypes := addArch w.archetypes e set }

/-- Remove an entity from whichever archetype currently holds it. -/
def QWorld.removeFromArchetypes (w : QWorld) (e : Nat) : QWorld :=
  { w with archetypes := removeArch w.archetypes e }

/-- The component set an entity currently holds (its archetype's set). -/
def entityCompsIn (l : List ArchetypeC) (e : Nat) : List Nat :=
  match l.find? (fun a => a.ents.contains e) with
  | some a => a.comps
  | none => []

/-- The component set an entity currently holds in a world. -/
def QWorld.entityComps (w : QWorld) (e : Nat) : List Nat :=
  entityCompsIn w.archetypes e

/-- World::spawn: allocate the next entity index and put the entity into the
empty archetype. -/
def QWorld.spawn (w : QWorld) : QWorld :=
  { w.addToArchetype w.nextE [] with nextE := w.nextE + 1 }

/-- Store every value of a bundle for an entity, with added and changed
ticks reset to the given insertion tick. -/
def insertFold (reg : Nat → StorageType) (e tk : Nat)
    (bundle : List (Nat × Nat)) (w : QWorld) : QWorld :=
  bundle.foldl
    (fun acc p =>
      QWorld.setValue reg acc e p.1
        { value := p.2, added_tick := tk, changed_tick := tk })
    w

/-- insert_bundle: migrate the entity to the archetype of the union component
set, then store each bundle value with added and changed ticks reset to the
current global tick. -/
def QWorld.insertBundle (reg : Nat → StorageType) (w : QWorld) (e : Nat)
    (bundle : List (Nat × Nat)) : QWorld :=
  insertFold reg e w.tick bundle
    ((w.removeFromArchetypes e).addToArchetype e
      (canonSet (w.entityComps e ++ bundle.map (·.1))))

/-- Whether an archetype matches a query shape (it stores every requested
component id). -/
def archMatches (shape : List Nat) (a : ArchetypeC) : Bool :=
  shape.all (fun c => a.comps.contains c)

/-- One fetched query row: the entity and, per requested component, the
stored instance. -/
def fetchRow (g : Nat → Nat → Option CompVal) (shape : List Nat) (e : Nat) :
    Nat × List (Option CompVal) :=
  (e, shape.map fun c => g e c)

/-- Query iteration over a storage-reading function: walk the archetypes in
creation order, keep those matching the shape, and yield one row per entity
in archetype order. -/
def queryRows (g : Nat → Nat → Option CompVal) (archs : List ArchetypeC)
    (shape : List Nat) : List (Nat × List (Option CompVal)) :=
  (archs.filter (archMatches shape)).flatMap fun a =>
    a.ents.map (fetchRow g shape)

/-- iter over a query shape: the rows read through the registry-selected
storages. -/
def QWorld.query (reg : Nat → StorageType) (w : QWorld) (shape : List Nat) :
    List (Nat × List (Option CompVal)) :=
  queryRows (w.getValue reg) w.archetypes shape

/-- Overwrite the target component of every listed entity with the given
value, marking each changed at the given tick. -/
def updateFold (reg : Nat → StorageType) (tk target v : Nat)
    (matched : List Nat) (w : QWorld) : QWorld :=
  matched.foldl
    (fun acc e =>
      match QWorld.getValue reg acc e target with
      | some cv =>
        QWorld.setValue reg acc e target
          { cv with value := v, changed_tick := tk }
      | none => acc)
    w

/-- Advance the global tick at the end of a system run. -/
def QWorld.bumpTick (w : QWorld) : QWorld := { w with tick := w.tick + 1 }

/-- A mutating query pass (the iter_mut loops of the tests): for every entity
matching the shape, overwrite the target component's value and mark it
changed at the current global tick; the global tick advances after the run. -/
def QWorld.updatePass (reg : Nat → StorageType) (w : QWorld)
    (shape : List Nat) (target : Nat) (v : Nat) : QWorld :=
  QWorld.bumpTick
    (updateFold reg w.tick target v
      ((w.archetypes.filter (archMatches shape)).flatMap (fun a => a.ents))
      w)

/-- The operations of the insert/query sequences compared across storage
strategies. -/
inductive Op where
  | spawn
  | insert (e : Nat) (bundle : List (Nat × Nat))
  | update (shape : List Nat) (target : Nat) (v : Nat)
  | query (shape : List Nat)
deriving DecidableEq

/-- Run a sequence of operations, collecting the output of every query
operation in order. -/
def runOps (reg : Nat → StorageType) :
    List Op → QWorld → QWorld × List (List (Nat × List (Option CompVal)))
  | [], w => (w, [])
  | op :: ops, w =>
    match op with
    | .spawn => runOps reg ops w.spawn
    | .insert e b => runOps reg ops (w.insertBundle reg e b)
    | .update s t v => runOps reg ops (w.updatePass reg s t v)
    | .query s =>
      let r := runOps reg ops w
      (r.1, w.query reg s :: r.2)

theorem U32MAX_lt : U32MAX < U32MOD := by
  unfold U32MAX U32MOD
  omega

theorem MAX_DELTA_lt : MAX_DELTA < U32MOD := by
  unfold MAX_DELTA U32MOD
  omega

theorem wrappingSub_cancel (g b : Nat) (hg : g < U32MOD) (hb : b < U32MOD) :
    wrappingSub g (wrappingSub g b) = b := by
  rw [wrappingSub_eq g b hg hb]
  split
  case isTrue h =>
    rw [wrappingSub_eq g (g - b) hg (by omega)]
    split <;> omega
  case isFalse h =>
    rw [wrappingSub_eq g (g + U32MOD - b) hg (by omega)]
    split <;> omega

/-- C10: ExclusiveSystemFn::run saves the world's exclusive_system_counter on
entry, exposes the running system's own system_counter to the callback for
its whole duration, and unconditionally restores the saved value before
returning, so for every callback — including one that runs another exclusive
system — the world's exclusive_system_counter after the run equals its
pre-run value. -/
theorem exclusive_run_restores_exclusive_counter (s : ExclusiveSystemFn)
    (w : SWorld) :
    (s.run w).1.exclusive_system_counter = w.exclusive_system_counter ∧
    (s.run w).1.data =
      (s.func { w with exclusive_system_counter := s.system_counter }).data ∧
    (s.run w).1.global_system_counter =
      ((s.func { w with exclusive_system_counter := s.system_counter
        }).global_system_counter + 1) % U32MOD := by
  refine ⟨rfl, rfl, rfl⟩

/-- C8: ExclusiveSystemCoerced::run first runs the wrapped system (its
counter bookkeeping completes) and then, before returning, applies the
wrapped system's buffered deferred mutations to the world produced by that
run, in that order. -/
theorem coerced_run_applies_buffers_after_run (s : FunctionSystem Unit)
    (w : SWorld) :
    ExclusiveSystemCoerced.run s w =
      ((s.run_unsafe w).system.apply_buffers (s.run_unsafe w).world,
       (s.run_unsafe w).system) ∧
    (ExclusiveSystemCoerced.run s w).1.data = w.data ++ s.buffer ∧
    (ExclusiveSystemCoerced.run s w).1.global_system_counter =
      (w.global_system_counter + 1) % U32MOD ∧
    (ExclusiveSystemCoerced.run s w).2.system_state.system_counter =
      w.global_system_counter := by
  refine ⟨rfl, rfl, rfl, rfl⟩

/-- C3: every newly constructed system state (SystemState::new for function
systems, IntoExclusiveSystem::exclusive_system for exclusive ones) starts
with its counter at u32::MAX, and a system whose counter is u32::MAX
observes, on a first run (global tick not yet wrapped, every existing
component inserted at some tick up to the current one), every existing
component as both added and changed. -/
theorem new_system_counter_sentinel :
    (∀ name, (SystemState.new name).system_counter = U32MAX) ∧
    (∀ f name, (exclusive_system f name).system_counter = U32MAX) ∧
    (∀ (c : ComponentCounters) (g : Nat),
      c.added_tick ≤ g → c.changed_tick ≤ g → g < U32MAX →
      c.is_added U32MAX g = true ∧ c.is_mutated U32MAX g = true) := by
  refine ⟨fun _ => rfl, fun _ _ => rfl, fun c g h1 h2 h3 => ?_⟩
  have hg : g < U32MOD := lt_trans h3 U32MAX_lt
  have hmax : wrappingSub g U32MAX = g + 1 := by
    rw [wrappingSub_eq g U32MAX hg U32MAX_lt]
    have : ¬ U32MAX ≤ g := by omega
    rw [if_neg this]
    unfold U32MAX U32MOD
    omega
  constructor
  · unfold ComponentCounters.is_added
    rw [wrappingSub_eq g c.added_tick hg (by omega), if_pos h1, hmax]
    simp only [decide_eq_true_eq]
    omega
  · unfold ComponentCounters.is_mutated
    rw [wrappingSub_eq g c.changed_tick hg (by omega), if_pos h2, hmax]
    simp only [decide_eq_true_eq]
    omega

/-- Witness for the hypotheses of new_system_counter_sentinel at a concrete
counter pair and global tick. -/
theorem new_system_counter_sentinel_witness :
    (ComponentCounters.mk 2 3).is_added U32MAX 5 = true ∧
    (ComponentCounters.mk 2 3).is_mutated U32MAX 5 = true :=
  new_system_counter_sentinel.2.2 (ComponentCounters.mk 2 3) 5
    (by decide) (by decide) (by decide)

/-- C9: for function systems and exclusive systems alike,
check_system_counter applies check_system_counter_impl to the system's own
counter; the impl leaves a counter within half the u32 range of the global
tick unchanged, and after it runs the counter is always within half the
range of the global tick (ambiguous wraparound rebased), with no error value
produced — the result is just the corrected counter. -/
theorem check_system_counter_rebases (c g : Nat) (hc : c < U32MOD)
    (hg : g < U32MOD) :
    (wrappingSub g c ≤ MAX_DELTA → check_system_counter_impl c g = c) ∧
    wrappingSub g (check_system_counter_impl c g) ≤ MAX_DELTA ∧
    (∀ (s : FunctionSystem Unit),
      (s.check_system_counter g).system_state.system_counter =
        check_system_counter_impl s.system_state.system_counter g) ∧
    (∀ (s : ExclusiveSystemFn),
      (s.check_system_counter g).system_counter =
        check_system_counter_impl s.system_counter g) := by
  refine ⟨?_, ?_, fun _ => rfl, fun _ => rfl⟩
  · intro h
    unfold check_system_counter_impl
    rw [if_neg (by omega)]
  · unfold check_system_counter_impl
    split
    case isTrue h =>
      rw [wrappingSub_cancel g MAX_DELTA hg MAX_DELTA_lt]
    case isFalse h =>
      omega

/-- Witness for the hypotheses of check_system_counter_rebases at concrete
counter values. -/
theorem check_system_counter_rebases_witness :
    (wrappingSub 9 7 ≤ MAX_DELTA → check_system_counter_impl 7 9 = 7) ∧
    wrappingSub 9 (check_system_counter_impl 7 9) ≤ MAX_DELTA :=
  ⟨(check_system_counter_rebases 7 9 (by decide) (by decide)).1,
   (check_system_counter_rebases 7 9 (by decide) (by decide)).2.1⟩

/-- C2: every mutable dereference of a ReflectMut marks the component changed
at the current global tick — the value is handed back unmodified and the
added tick untouched, so the marking is on access, not on provable mutation;
a ReflectMut produced by reflect_component_mut carries the world's current
global tick, so the type-erased path marks with the same tick the world
holds; and the typed accessor's dereference produces exactly the same
counter marking. -/
theorem reflect_mut_marks_changed_on_deref :
    (∀ r : ReflectMut,
      (r.deref_mut.1.component_counters.changed_tick =
         r.global_system_counter) ∧
      r.deref_mut.2 = r.value ∧
      r.deref_mut.1.component_counters.added_tick =
        r.component_counters.added_tick ∧
      r.deref_mut.1.value = r.value) ∧
    (∀ (w : RWorld) (cid : Nat) (e : Entity) (r : ReflectMut),
      reflect_component_mut w cid e = some r →
      r.deref_mut.1.component_counters.changed_tick =
        w.global_system_counter) ∧
    (∀ (r : ReflectMut) (m : Mut),
      r.component_counters = m.component_counters →
      r.global_system_counter = m.global_system_counter →
      r.deref_mut.1.component_counters = m.deref_mut.1.component_counters) := by
  refine ⟨fun r => ⟨rfl, rfl, rfl, rfl⟩, ?_, ?_⟩
  · intro w cid e r h
    cases hw : RWorld.get_entity w e with
    | none => simp [reflect_component_mut, hw] at h
    | some rec =>
      cases hl : w.compData.lookup (e.index, cid) with
      | none => simp [reflect_component_mut, hw, hl] at h
      | some slot =>
        simp [reflect_component_mut, hw, hl] at h
        rw [← h]
        rfl
  · intro r m h1 h2
    simp [ReflectMut.deref_mut, Mut.deref_mut, ComponentCounters.set_changed,
      h1, h2]

/-- Witness for the hypotheses of reflect_mut_marks_changed_on_deref: a
concrete world whose single entity holds component 5, read through
reflect_component_mut and dereferenced. -/
theorem reflect_mut_marks_changed_on_deref_witness :
    ((ReflectMut.mk 7 (ComponentCounters.mk 1 2) 3 10).deref_mut).1.component_counters.changed_tick = 10 ∧
    ((ReflectMut.mk 7 (ComponentCounters.mk 1 2) 3 10).deref_mut).1.component_counters =
      ((Mut.mk 7 (ComponentCounters.mk 1 2) 3 10).deref_mut).1.component_counters :=
  ⟨reflect_mut_marks_changed_on_deref.2.1
      (RWorld.mk [(0, EntityRecord.mk 0 0)] [] []
        [((0, 5), CompSlot.mk 7 (ComponentCounters.mk 1 2))] 10 3)
      5 (Entity.mk 0 0)
      (ReflectMut.mk 7 (ComponentCounters.mk 1 2) 3 10) (by decide),
   reflect_mut_marks_changed_on_deref.2.2
      (ReflectMut.mk 7 (ComponentCounters.mk 1 2) 3 10)
      (Mut.mk 7 (ComponentCounters.mk 1 2) 3 10) rfl rfl⟩

/-- C5 counterexample: a world with one live entity and no stored components.
The entity handle resolves (it is not stale), yet apply_component hits the
unwrap of a None mutable borrow — a panic, modelled as none — instead of
returning a typed error value. -/
theorem apply_component_missing_is_panic :
    ((RWorld.mk [(0, EntityRecord.mk 0 0)] [] [] [] 0 0).get_entity
        (Entity.mk 0 0)).isSome = true ∧
    (apply_component (RWorld.mk [(0, EntityRecord.mk 0 0)] [] [] [] 0 0) 5
        (Entity.mk 0 0) 9).isNone = true := by
  decide

/-- C5 amended: apply_component does not surface a missing component as a
typed result — it panics (the unwrap) exactly when the mutable borrow is
None, that is, when the handle is stale or the entity lacks the component;
the reflection-bridge paths that do surface those situations as local typed
results are reflect_component and reflect_component_mut, which return None
in exactly the same situations. -/
theorem apply_component_panic_characterization (w : RWorld) (cid : Nat)
    (e : Entity) (v : Nat) :
    ((apply_component w cid e v).isNone = (w.get_mut cid e).isNone) ∧
    ((reflect_component w cid e).isNone = (w.get_mut cid e).isNone) ∧
    ((reflect_component_mut w cid e).isNone = (w.get_mut cid e).isNone) := by
  refine ⟨?_, ?_, ?_⟩ <;>
  · cases hw : RWorld.get_entity w e with
    | none =>
      simp [apply_component, reflect_component, reflect_component_mut,
        RWorld.get_mut, hw]
    | some r =>
      cases hl : w.compData.lookup (e.index, cid) with
      | none =>
        simp [apply_component, reflect_component, reflect_component_mut,
          RWorld.get_mut, hw, hl]
      | some slot =>
        simp [apply_component, reflect_component, reflect_component_mut,
          RWorld.get_mut, hw, hl]

/-- C4: DirectQuery::get_component returns NoSuchEntity on a stale handle
before anything else is consulted; once the handle resolves, an unregistered
type or an archetype not holding the component yields MissingComponent; with
the component present, a missing read grant in the proven
archetype-component access set yields MissingReadAccess, and otherwise the
component value is returned. get_component_unchecked_mut follows the same
cases with the write grant and MissingWriteAccess, and get_component_mut is
exactly get_component_unchecked_mut. -/
theorem get_component_error_taxonomy (w : RWorld) (q : Access) (t : Nat)
    (e : Entity) :
    (w.get_entity e = none →
      DirectQuery.get_component w q t e = .error .NoSuchEntity ∧
      DirectQuery.get_component_unchecked_mut w q t e =
        .error .NoSuchEntity) ∧
    (∀ r, w.get_entity e = some r →
      (w.typeIds.lookup t = none →
        DirectQuery.get_component w q t e = .error .MissingComponent ∧
        DirectQuery.get_component_unchecked_mut w q t e =
          .error .MissingComponent) ∧
      (∀ cid, w.typeIds.lookup t = some cid →
        (w.archCompIds.lookup (r.archetype, cid) = none →
          DirectQuery.get_component w q t e = .error .MissingComponent ∧
          DirectQuery.get_component_unchecked_mut w q t e =
            .error .MissingComponent) ∧
        (∀ ac, w.archCompIds.lookup (r.archetype, cid) = some ac →
          (q.has_read ac = false →
            DirectQuery.get_component w q t e = .error .MissingReadAccess) ∧
          (q.has_write ac = false →
            DirectQuery.get_component_unchecked_mut w q t e =
              .error .MissingWriteAccess) ∧
          (∀ slot, w.compData.lookup (e.index, cid) = some slot →
            (q.has_read ac = true →
              DirectQuery.get_component w q t e = .ok slot.value) ∧
            (q.has_write ac = true →
              DirectQuery.get_component_unchecked_mut w q t e =
                .ok slot))))) ∧
    DirectQuery.get_component_mut w q t e =
      DirectQuery.get_component_unchecked_mut w q t e := by
  refine ⟨?_, ?_, rfl⟩
  · intro h
    exact ⟨by simp [DirectQuery.get_component, h],
      by simp [DirectQuery.get_component_unchecked_mut, h]⟩
  · intro r hr
    refine ⟨?_, ?_⟩
    · intro h
      exact ⟨by simp [DirectQuery.get_component, hr, h],
        by simp [DirectQuery.get_component_unchecked_mut, hr, h]⟩
    · intro cid hcid
      refine ⟨?_, ?_⟩
      · intro h
        exact ⟨by simp [DirectQuery.get_component, hr, hcid, h],
          by simp [DirectQuery.get_component_unchecked_mut, hr, hcid, h]⟩
      · intro ac hac
        refine ⟨?_, ?_, ?_⟩
        · intro h
          simp [DirectQuery.get_component, hr, hcid, hac, h]
        · intro h
          simp [DirectQuery.get_component_unchecked_mut, hr, hcid, hac, h]
        · intro slot hslot
          exact ⟨fun h => by
              simp [DirectQuery.get_component, hr, hcid, hac, h, hslot],
            fun h => by
              simp [DirectQuery.get_component_unchecked_mut, hr, hcid, hac,
                h, hslot]⟩

/-- Witness for the hypotheses of get_component_error_taxonomy: a world with
a live entity in archetype 1 holding component 5 (Rust type id 42,
archetype-component id 33), queried with an access set granting both the
read and the write. -/
theorem get_component_error_taxonomy_witness :
    DirectQuery.get_component
        (RWorld.mk [(0, EntityRecord.mk 0 1)] [(42, 5)] [((1, 5), 33)]
          [((0, 5), CompSlot.mk 7 (ComponentCounters.mk 0 0))] 0 0)
        (Access.mk [33] [33]) 42 (Entity.mk 0 0) = .ok 7 ∧
    DirectQuery.get_component_unchecked_mut
        (RWorld.mk [(0, EntityRecord.mk 0 1)] [(42, 5)] [((1, 5), 33)]
          [((0, 5), CompSlot.mk 7 (ComponentCounters.mk 0 0))] 0 0)
        (Access.mk [33] [33]) 42 (Entity.mk 0 0) =
      .ok (CompSlot.mk 7 (ComponentCounters.mk 0 0)) :=
  ⟨((((get_component_error_taxonomy
        (RWorld.mk [(0, EntityRecord.mk 0 1)] [(42, 5)] [((1, 5), 33)]
          [((0, 5), CompSlot.mk 7 (ComponentCounters.mk 0 0))] 0 0)
        (Access.mk [33] [33]) 42 (Entity.mk 0 0)).2.1
      (EntityRecord.mk 0 1) (by decide)).2 5 (by decide)).2 33
      (by decide)).2.2 (CompSlot.mk 7 (ComponentCounters.mk 0 0))
      (by decide) |>.1 (by decide),
   ((((get_component_error_taxonomy
        (RWorld.mk [(0, EntityRecord.mk 0 1)] [(42, 5)] [((1, 5), 33)]
          [((0, 5), CompSlot.mk 7 (ComponentCounters.mk 0 0))] 0 0)
        (Access.mk [33] [33]) 42 (Entity.mk 0 0)).2.1
      (EntityRecord.mk 0 1) (by decide)).2 5 (by decide)).2 33
      (by decide)).2.2 (CompSlot.mk 7 (ComponentCounters.mk 0 0))
      (by decide) |>.2 (by decide)⟩

/-- C1 counterexample: an exclusive system whose callback itself runs another
exclusive system (the nesting the code's saved-counter comment anticipates).
Invoked at global tick 5, the run leaves the outer system's counter at 6 —
the tick current after the callback, not at invocation — and the global tick
at 7, an advance of two, falsifying the claim as stated. -/
theorem run_tick_claim_counterexample :
    ¬(((exclusive_system
          (fun w => ((exclusive_system id "inner").run w).1) "outer").run
        (SWorld.mk 5 0 [])).2.system_counter = 5 ∧
      ((exclusive_system
          (fun w => ((exclusive_system id "inner").run w).1) "outer").run
        (SWorld.mk 5 0 [])).1.global_system_counter = 6) := by
  intro h
  have h1 : ((exclusive_system
      (fun w => ((exclusive_system id "inner").run w).1) "outer").run
      (SWorld.mk 5 0 [])).2.system_counter = 6 := rfl
  rw [h1] at h
  exact absurd h.1 (by omega)

/-- C1 amended: FunctionSystem::run_unsafe records the invocation-time global
tick as the system's counter and advances the global tick by exactly one.
ExclusiveSystemFn::run records the global tick current when its callback
returns and adds one further increment; whenever the callback leaves the
global tick unchanged (the non-nested case) this coincides with the claim:
the counter equals the invocation-time tick and the tick advances by one. -/
theorem run_tick_amended :
    (∀ (α : Type) (s : FunctionSystem α) (w : SWorld),
      (s.run_unsafe w).system.system_state.system_counter =
        w.global_system_counter ∧
      (s.run_unsafe w).world.global_system_counter =
        (w.global_system_counter + 1) % U32MOD) ∧
    (∀ (s : ExclusiveSystemFn) (w : SWorld),
      (s.run w).2.system_counter =
        (s.func { w with exclusive_system_counter := s.system_counter
          }).global_system_counter ∧
      (s.run w).1.global_system_counter =
        ((s.func { w with exclusive_system_counter := s.system_counter
          }).global_system_counter + 1) % U32MOD) ∧
    (∀ (s : ExclusiveSystemFn) (w : SWorld),
      (s.func { w with exclusive_system_counter := s.system_counter
        }).global_system_counter = w.global_system_counter →
      (s.run w).2.system_counter = w.global_system_counter ∧
      (s.run w).1.global_system_counter =
        (w.global_system_counter + 1) % U32MOD) := by
  refine ⟨fun α s w => ⟨rfl, rfl⟩, fun s w => ⟨rfl, rfl⟩, fun s w h => ?_⟩
  constructor
  · show (s.func { w with exclusive_system_counter := s.system_counter
      }).global_system_counter = w.global_system_counter
    exact h
  · show ((s.func { w with exclusive_system_counter := s.system_counter
      }).global_system_counter + 1) % U32MOD =
      (w.global_system_counter + 1) % U32MOD
    rw [h]

/-- Witness for the hypothesis of run_tick_amended: an exclusive system whose
callback is the identity, run at global tick 5. -/
theorem run_tick_amended_witness :
    ((exclusive_system id "f").run (SWorld.mk 5 0 [])).2.system_counter = 5 ∧
    ((exclusive_system id "f").run
        (SWorld.mk 5 0 [])).1.global_system_counter = (5 + 1) % U32MOD :=
  run_tick_amended.2.2 (exclusive_system id "f") (SWorld.mk 5 0 []) rfl

theorem lookup_aset [BEq κ] [LawfulBEq κ] [DecidableEq κ] (k k2 : κ) (v : ν)
    (l : List (κ × ν)) :
    List.lookup k2 (aset k v l) =
      if k2 = k then some v else List.lookup k2 l := by
  induction l with
  | nil =>
    by_cases h : k2 = k
    · simp [aset, List.lookup, h]
    · have hb : (k2 == k) = false := beq_eq_false_iff_ne.mpr h
      simp [aset, List.lookup, h, hb]
  | cons p rest ih =>
    by_cases hk : k = p.1
    · subst hk
      by_cases h : k2 = p.1
      · have hb : (k2 == p.1) = true := beq_iff_eq.mpr h
        simp [aset, List.lookup, h, hb]
      · have hb : (k2 == p.1) = false := beq_eq_false_iff_ne.mpr h
        simp [aset, List.lookup, h, hb]
    · have hb2 : (k == p.1) = false := beq_eq_false_iff_ne.mpr hk
      by_cases h : k2 = p.1
      · have hne : ¬ k2 = k := by
          rw [h]
          exact fun hh => hk hh.symm
        have hb : (k2 == p.1) = true := beq_iff_eq.mpr h
        simp [aset, List.lookup, hb2, hb, hne]
      · have hb : (k2 == p.1) = false := beq_eq_false_iff_ne.mpr h
        simp [aset, List.lookup, hb2, hb, ih]

theorem setValue_archetypes (reg : Nat → StorageType) (w : QWorld)
    (e c : Nat) (v : CompVal) :
    (w.setValue reg e c v).archetypes = w.archetypes := by
  unfold QWorld.setValue
  cases reg c <;> rfl

theorem setValue_nextE (reg : Nat → StorageType) (w : QWorld) (e c : Nat)
    (v : CompVal) : (w.setValue reg e c v).nextE = w.nextE := by
  unfold QWorld.setValue
  cases reg c <;> rfl

theorem setValue_tick (reg : Nat → StorageType) (w : QWorld) (e c : Nat)
    (v : CompVal) : (w.setValue reg e c v).tick = w.tick := by
  unfold QWorld.setValue
  cases reg c <;> rfl

theorem getValue_setValue (reg : Nat → StorageType) (w : QWorld) (e c : Nat)
    (v : CompVal) (e2 c2 : Nat) :
    (w.setValue reg e c v).getValue reg e2 c2 =
      if (e2, c2) = (e, c) then some v else w.getValue reg e2 c2 := by
  unfold QWorld.setValue QWorld.getValue
  cases hc : reg c <;> cases hc2 : reg c2
  · simp [lookup_aset]
  · have hne : ¬ ((e2, c2) = (e, c)) := by
      intro h
      rw [Prod.mk.injEq] at h
      rw [h.2] at hc2
      rw [hc2] at hc
      exact StorageType.noConfusion hc
    simp [hne]
  · have hne : ¬ ((e2, c2) = (e, c)) := by
      intro h
      rw [Prod.mk.injEq] at h
      rw [h.2] at hc2
      rw [hc2] at hc
      exact StorageType.noConfusion hc
    simp [hne]
  · simp [lookup_aset]

/-- The simulation relation between a run of the storage model under one
registry and a run under another: identical archetype structure, allocator
state and tick, and identical observable component instances. -/
def EqStores (reg reg2 : Nat → StorageType) (w w2 : QWorld) : Prop :=
  w.archetypes = w2.archetypes ∧ w.nextE = w2.nextE ∧ w.tick = w2.tick ∧
  w.getValue reg = w2.getValue reg2

theorem EqStores.setValue {reg reg2 : Nat → StorageType} {w w2 : QWorld}
    (h : EqStores reg reg2 w w2) (e c : Nat) (v : CompVal) :
    EqStores reg reg2 (w.setValue reg e c v) (w2.setValue reg2 e c v) := by
  obtain ⟨h1, h2, h3, h4⟩ := h
  refine ⟨?_, ?_, ?_, ?_⟩
  · rw [setValue_archetypes, setValue_archetypes, h1]
  · rw [setValue_nextE, setValue_nextE, h2]
  · rw [setValue_tick, setValue_tick, h3]
  · funext e2 c2
    rw [getValue_setValue, getValue_setValue, h4]

theorem EqStores.addToArchetype {reg reg2 : Nat → StorageType}
    {w w2 : QWorld} (h : EqStores reg reg2 w w2) (e : Nat) (s : List Nat) :
    EqStores reg reg2 (w.addToArchetype e s) (w2.addToArchetype e s) := by
  obtain ⟨h1, h2, h3, h4⟩ := h
  exact ⟨by simp [QWorld.addToArchetype, h1], h2, h3, h4⟩

theorem EqStores.removeFromArchetypes {reg reg2 : Nat → StorageType}
    {w w2 : QWorld} (h : EqStores reg reg2 w w2) (e : Nat) :
    EqStores reg reg2 (w.removeFromArchetypes e)
      (w2.removeFromArchetypes e) := by
  obtain ⟨h1, h2, h3, h4⟩ := h
  exact ⟨by simp [QWorld.removeFromArchetypes, h1], h2, h3, h4⟩

theorem EqStores.spawn {reg reg2 : Nat → StorageType} {w w2 : QWorld}
    (h : EqStores reg reg2 w w2) :
    EqStores reg reg2 w.spawn w2.spawn := by
  have h2 := h.2.1
  obtain ⟨g1, g2, g3, g4⟩ := h.addToArchetype w.nextE []
  unfold QWorld.spawn
  rw [← h2]
  exact ⟨g1, by rw [h2], g3, g4⟩

theorem insertFold_pres (reg reg2 : Nat → StorageType) (e tk : Nat) :
    ∀ (bundle : List (Nat × Nat)) (a a2 : QWorld),
      EqStores reg reg2 a a2 →
      EqStores reg reg2 (insertFold reg e tk bundle a)
        (insertFold reg2 e tk bundle a2)
  | [], _, _, h => h
  | p :: rest, a, a2, h =>
    insertFold_pres reg reg2 e tk rest _ _ (h.setValue e p.1 _)

theorem EqStores.insertBundle {reg reg2 : Nat → StorageType} {w w2 : QWorld}
    (h : EqStores reg reg2 w w2) (e : Nat) (bundle : List (Nat × Nat)) :
    EqStores reg reg2 (w.insertBundle reg e bundle)
      (w2.insertBundle reg2 e bundle) := by
  have h1 := h.1
  have h3 := h.2.2.1
  unfold QWorld.insertBundle
  rw [show w.entityComps e = w2.entityComps e by
        unfold QWorld.entityComps entityCompsIn
        rw [h1],
      ← h3]
  exact insertFold_pres reg reg2 e w.tick bundle _ _
    ((h.removeFromArchetypes e).addToArchetype e _)

theorem updateFold_pres (reg reg2 : Nat → StorageType) (tk target v : Nat) :
    ∀ (matched : List Nat) (a a2 : QWorld),
      EqStores reg reg2 a a2 →
      EqStores reg reg2 (updateFold reg tk target v matched a)
        (updateFold reg2 tk target v matched a2)
  | [], _, _, h => h
  | e :: rest, a, a2, h => by
    have hg : QWorld.getValue reg a e target =
        QWorld.getValue reg2 a2 e target :=
      congrFun (congrFun h.2.2.2 e) target
    have step : EqStores reg reg2
        (match QWorld.getValue reg a e target with
         | some cv =>
           QWorld.setValue reg a e target
             { cv with value := v, changed_tick := tk }
         | none => a)
        (match QWorld.getValue reg2 a2 e target with
         | some cv =>
           QWorld.setValue reg2 a2 e target
             { cv with value := v, changed_tick := tk }
         | none => a2) := by
      rw [hg]
      cases QWorld.getValue reg2 a2 e target with
      | none => exact h
      | some cv => exact h.setValue e target _
    exact updateFold_pres reg reg2 tk target v rest _ _ step

theorem EqStores.bumpTick {reg reg2 : Nat → StorageType} {w w2 : QWorld}
    (h : EqStores reg reg2 w w2) :
    EqStores reg reg2 w.bumpTick w2.bumpTick := by
  obtain ⟨h1, h2, h3, h4⟩ := h
  exact ⟨h1, h2, by unfold QWorld.bumpTick; rw [h3], h4⟩

theorem EqStores.updatePass {reg reg2 : Nat → StorageType} {w w2 : QWorld}
    (h : EqStores reg reg2 w w2) (shape : List Nat) (target v : Nat) :
    EqStores reg reg2 (w.updatePass reg shape target v)
      (w2.updatePass reg2 shape target v) := by
  have h1 := h.1
  have h3 := h.2.2.1
  unfold QWorld.updatePass
  rw [h1, ← h3]
  exact (updateFold_pres reg reg2 w.tick target v
    ((w2.archetypes.filter (archMatches shape)).flatMap fun a => a.ents)
    w w2 h).bumpTick

theorem EqStores.query {reg reg2 : Nat → StorageType} {w w2 : QWorld}
    (h : EqStores reg reg2 w w2) (shape : List Nat) :
    w.query reg shape = w2.query reg2 shape := by
  unfold QWorld.query
  rw [h.1, h.2.2.2]

theorem runOps_pres (reg reg2 : Nat → StorageType) :
    ∀ (ops : List Op) (w w2 : QWorld), EqStores reg reg2 w w2 →
      EqStores reg reg2 (runOps reg ops w).1 (runOps reg2 ops w2).1 ∧
      (runOps reg ops w).2 = (runOps reg2 ops w2).2
  | [], _, _, h => ⟨h, rfl⟩
  | op :: ops, w, w2, h => by
    cases op with
    | spawn => exact runOps_pres reg reg2 ops _ _ h.spawn
    | insert e b => exact runOps_pres reg reg2 ops _ _ (h.insertBundle e b)
    | update s t v =>
      exact runOps_pres reg reg2 ops _ _ (h.updatePass s t v)
    | query s =>
      have ih := runOps_pres reg reg2 ops w w2 h
      refine ⟨ih.1, ?_⟩
      show w.query reg s :: _ = w2.query reg2 s :: _
      rw [h.query s, ih.2]

theorem EqStores.empty (reg reg2 : Nat → StorageType) :
    EqStores reg reg2 QWorld.empty QWorld.empty := by
  refine ⟨rfl, rfl, rfl, ?_⟩
  funext e c
  unfold QWorld.getValue
  cases reg c <;> cases reg2 c <;> rfl

/-- C7: the two storage strategies are observationally equivalent at the
query interface — for every sequence of spawn/insert/update/query operations
and any two component-storage registries (in particular, component A
registered SparseSet versus Table), the runs produce exactly the same query
outputs: the same rows, in the same order, with the same values and change
ticks. -/
theorem storage_strategies_observationally_equivalent
    (reg reg2 : Nat → StorageType) (ops : List Op) :
    (runOps reg ops QWorld.empty).2 = (runOps reg2 ops QWorld.empty).2 :=
  (runOps_pres reg reg2 ops QWorld.empty QWorld.empty
    (EqStores.empty reg reg2)).2

/-- All components table-stored: the default registry of the query test. -/
def regTable : Nat → StorageType := fun _ => StorageType.Table

/-- The operation sequence of the query test (query/mod.rs lines 33-46):
spawn an entity with A(1), B(1) (component ids 0 and 1), spawn an entity with
only A(2), read all A values, set B to 3 through a (&A, &mut B) pass, then
read all B values. -/
def scenarioOps : List Op :=
  [Op.spawn, Op.insert 0 [(0, 1), (1, 1)], Op.spawn, Op.insert 1 [(0, 2)],
   Op.query [0], Op.update [0, 1] 1 3, Op.query [1]]

/-- C6: in the two-entity world of the query test, the A-query sees A(1) and
A(2); after the (&A, &mut B) pass writes B=3 wherever the shape matches, the
B-query observes exactly the value 3, for the first entity only; and the
second entity (entity 1, archetype {A}) never appears in any query whose
shape requires B (component id 1). -/
theorem query_scenario_end_to_end :
    ((runOps regTable scenarioOps QWorld.empty).2 =
      [[(0, [some (CompVal.mk 1 0 0)]), (1, [some (CompVal.mk 2 0 0)])],
       [(0, [some (CompVal.mk 3 0 0)])]]) ∧
    (∀ (shape : List Nat) (p : Nat × List (Option CompVal)),
      1 ∈ shape →
      p ∈ (runOps regTable scenarioOps QWorld.empty).1.query regTable shape →
      p.1 ≠ 1) := by
  constructor
  · decide
  · intro shape p h1 hp
    have hW : (runOps regTable scenarioOps QWorld.empty).1 =
        QWorld.mk
          [ArchetypeC.mk [] [], ArchetypeC.mk [0, 1] [0],
           ArchetypeC.mk [0] [1]]
          [((0, 0), CompVal.mk 1 0 0), ((0, 1), CompVal.mk 3 0 0),
           ((1, 0), CompVal.mk 2 0 0)]
          [] 2 1 := by decide
    rw [hW] at hp
    have hA0 : archMatches shape (ArchetypeC.mk [] []) = false := by
      refine Bool.eq_false_iff.mpr fun hall => ?_
      have := List.all_eq_true.mp hall 1 h1
      exact absurd this (by decide)
    have hA2 : archMatches shape (ArchetypeC.mk [0] [1]) = false := by
      refine Bool.eq_false_iff.mpr fun hall => ?_
      have := List.all_eq_true.mp hall 1 h1
      exact absurd this (by decide)
    unfold QWorld.query queryRows at hp
    cases hA1 : archMatches shape (ArchetypeC.mk [0, 1] [0]) with
    | false =>
      simp [List.filter, hA0, hA1, hA2] at hp
    | true =>
      simp [List.filter, hA0, hA1, hA2, fetchRow] at hp
      rw [hp]
      simp

/-- Witness for the hypotheses of query_scenario_end_to_end: the single row
the B-query yields after the scenario has entity 0, not entity 1. -/
theorem query_scenario_end_to_end_witness :
    ((0, [some (CompVal.mk 3 0 0)]) : Nat × List (Option CompVal)).1 ≠ 1 :=
  query_scenario_end_to_end.2 [1] (0, [some (CompVal.mk 3 0 0)])
    (by decide) (by decide)

end BevyEcs
